import Mathlib

/-
Verification development for the Interactive-Map-TDAO repository.

The TypeScript sources are shallowly embedded: JavaScript strings are Lean
`String`s, and the handful of JS string primitives the code uses
(`trim`, `split('\n')`, `includes`, `startsWith`, `toLowerCase`, truthiness)
are modelled as structurally recursive functions on the underlying character
lists.  JS `undefined`-able values become `Option`s; JS truthiness of a
string is "non-empty", of an object "present", of an array "present"
(even when empty).  Route handlers become pure functions from the request
fields and the outcomes of the awaited external calls to the HTTP response
(status code and `success` flag); a thrown error is an `Except.error`.
-/

namespace TDAO

/-- JS truthiness of a string: true exactly when the string is non-empty. -/
def jsTruthy (s : String) : Bool := !s.data.isEmpty

/-- JS truthiness of a possibly-`undefined` string: `undefined` and `""` are falsy. -/
def optTruthy : Option String → Bool
  | none => false
  | some s => jsTruthy s

/-- JS truthiness of a possibly-`undefined` array: any present array is truthy, even `[]`. -/
def arrTruthy : Option (List String) → Bool
  | none => false
  | some _ => true

/-- Remove leading and trailing whitespace from a character list. -/
def trimChars (l : List Char) : List Char :=
  ((l.dropWhile Char.isWhitespace).reverse.dropWhile Char.isWhitespace).reverse

/-- JS `String.prototype.trim`. -/
def jsTrim (s : String) : String := String.mk (trimChars s.data)

/-- Split a character list at every occurrence of the separator character. -/
def splitChars (sep : Char) : List Char → List Char → List (List Char)
  | [], acc => [acc.reverse]
  | c :: rest, acc =>
    if c = sep then acc.reverse :: splitChars sep rest []
    else splitChars sep rest (c :: acc)

/-- JS `String.prototype.split` with a single-character separator. -/
def jsSplit (s : String) (sep : Char) : List String :=
  (splitChars sep s.data []).map String.mk

/-- Does `pat` occur as a contiguous sublist of the second argument? -/
def hasSub (pat : List Char) : List Char → Bool
  | [] => pat.isEmpty
  | c :: rest => pat.isPrefixOf (c :: rest) || hasSub pat rest

/-- JS `String.prototype.includes`. -/
def jsIncludes (s pat : String) : Bool := hasSub pat.data s.data

/-- JS `String.prototype.startsWith` with a single-character argument. -/
def startsWithChar (s : String) (c : Char) : Bool :=
  match s.data with
  | [] => false
  | d :: _ => d = c

/-- JS `String.prototype.toLowerCase` (ASCII range, which covers the category table). -/
def lowerStr (s : String) : String := String.mk (s.data.map Char.toLower)

/- ===== Data model: Exa search results (src/app/types/api.ts) ===== -/

/-- Optional metadata on a search chunk (the source type ExaChunk.extra_info). -/
structure ChunkMeta where
  title : Option String
  author : Option String
  publish_date : Option String
  image_url : Option String
deriving DecidableEq

/-- A search result chunk: text snippet, source URL, optional metadata. -/
structure ExaChunk where
  text : String
  url : String
  extra_info : Option ChunkMeta
deriving DecidableEq

/-- An Exa search result: a list of chunks (plus a chunk count, unused by extraction). -/
structure ExaSearchResult where
  chunks : List ExaChunk
  total_chunk_count : Nat
deriving DecidableEq

/-- The profile-info record accumulated by `extractProfileInfo`. -/
structure ProfileInfo where
  tweets : List String
  bio : Option String
  profileImageUrl : Option String
  name : Option String
deriving DecidableEq

/-- The optional chaining access `chunk.extra_info?.image_url`. -/
def chunkImage (c : ExaChunk) : Option String := c.extra_info.bind fun m => m.image_url

/-- The optional chaining access `chunk.extra_info?.title`. -/
def chunkTitle (c : ExaChunk) : Option String := c.extra_info.bind fun m => m.title

/- ===== ExaClient.extractProfileInfo (src/app/lib/exa.ts, lines 72-128) ===== -/

/-- The bio line filter of `extractProfileInfo`: keep lines longer than 10
characters that do not contain "Followers"/"Following"/"Posts" and do not
start with "@". -/
def bioLineGood (l : String) : Bool :=
  decide (10 < l.data.length) &&
  !(jsIncludes l "Followers") &&
  !(jsIncludes l "Following") &&
  !(jsIncludes l "Posts") &&
  !(startsWithChar l '@')

/-- The bio branch line pipeline: split the chunk text on newlines, trim each line, keep the good ones. -/
def bioLinesOf (text : String) : List String :=
  ((jsSplit text '\n').map jsTrim).filter bioLineGood

/-- The regex match `title.match(/^([^(]+)/)`: the non-empty maximal prefix of
characters other than an opening parenthesis, when it exists. -/
def beforeParen (t : String) : Option String :=
  if (t.data.takeWhile fun c => c ≠ '(').isEmpty then none
  else some (String.mk (t.data.takeWhile fun c => c ≠ '('))

/-- Tweet accumulation step: `if (chunk.text && chunk.text.trim()) push(chunk.text.trim())`. -/
def stepTweets (tweets : List String) (c : ExaChunk) : List String :=
  if jsTruthy c.text && jsTruthy (jsTrim c.text) then tweets ++ [jsTrim c.text] else tweets

/-- Profile image step: `if (!profileInfo.profileImageUrl && chunk.extra_info?.image_url)`. -/
def stepImage (img : Option String) (c : ExaChunk) : Option String :=
  if !(optTruthy img) && optTruthy (chunkImage c) then chunkImage c else img

/-- Name step: `if (!profileInfo.name && chunk.extra_info?.title)` then regex match,
`if (titleMatch && titleMatch[1]) name = titleMatch[1].trim()`. -/
def stepName (name : Option String) (c : ExaChunk) : Option String :=
  match chunkTitle c with
  | none => name
  | some t =>
    if !(optTruthy name) && jsTruthy t then
      match beforeParen t with
      | none => name
      | some p => if jsTruthy p then some (jsTrim p) else name
    else name

/-- Bio step: `if (!profileInfo.bio && chunk.url.includes('/status/') === false)`
then `if (bioLines.length > 0) bio = bioLines[0]`. -/
def stepBio (bio : Option String) (c : ExaChunk) : Option String :=
  if !(optTruthy bio) && !(jsIncludes c.url "/status/") then
    match bioLinesOf c.text with
    | [] => bio
    | l :: _ => some l
  else bio

/-- One iteration of the `searchResult.chunks.forEach` body.  The source
performs four sequential in-place updates; each reads and writes only its own
field of the accumulator (plus the chunk), so the iteration is their product. -/
def processChunk (acc : ProfileInfo) (c : ExaChunk) : ProfileInfo :=
  { tweets := stepTweets acc.tweets c
    bio := stepBio acc.bio c
    profileImageUrl := stepImage acc.profileImageUrl c
    name := stepName acc.name c }

/-- Embeds `ExaClient.extractProfileInfo`: fold the chunk scan over the initial
all-empty profile record. -/
def extractProfileInfo (searchResult : ExaSearchResult) : ProfileInfo :=
  searchResult.chunks.foldl processChunk
    { tweets := [], bio := none, profileImageUrl := none, name := none }

/- ===== Spec-side characterisations of the extraction heuristic ===== -/

/-- Spec-side: the tweet snippet a chunk contributes, if any. -/
def tweetOf (c : ExaChunk) : Option String :=
  if jsTruthy c.text && jsTruthy (jsTrim c.text) then some (jsTrim c.text) else none

/-- Spec-side: every chunk with non-empty trimmed text contributes its trimmed text. -/
def specTweets (chunks : List ExaChunk) : List String := chunks.filterMap tweetOf

/-- Spec-side: the image URL a chunk exposes, if any (a present empty string is
falsy in JS and so exposes nothing). -/
def imageOf (c : ExaChunk) : Option String :=
  if optTruthy (chunkImage c) then chunkImage c else none

/-- Spec-side ("the first chunk exposing an image URL sets the profile image,
subsequent chunks cannot overwrite it"): the first exposed image URL in chunk order. -/
def specImage (chunks : List ExaChunk) : Option String :=
  (chunks.filterMap imageOf).head?

/-- Spec-side ("the first such line across all qualifying chunks becomes the
bio"): the first qualifying line, in chunk order, over chunks whose URL does
not contain "/status/". -/
def specBio (chunks : List ExaChunk) : Option String :=
  (((chunks.filter fun c => !(jsIncludes c.url "/status/")).map
      fun c => bioLinesOf c.text).flatten).head?

/-- Spec-side: the name a chunk contributes when its title prefix before an
opening parenthesis is non-empty after trimming. -/
def goodNameOf (c : ExaChunk) : Option String :=
  match chunkTitle c with
  | none => none
  | some t =>
    if jsTruthy t then
      match beforeParen t with
      | none => none
      | some p => if jsTruthy (jsTrim p) then some (jsTrim p) else none
    else none

/-- Spec-side: does this chunk's title match the name regex at all
(so that the scan assigns a name from it, possibly the empty string)? -/
def nameMatches (c : ExaChunk) : Bool :=
  match chunkTitle c with
  | none => false
  | some t => jsTruthy t && (beforeParen t).isSome

/-- Spec-side (amended): the extracted display name is the trimmed title
prefix of the first chunk whose prefix trims to something non-empty; when no
such chunk exists but some chunk's title matches the regex, the name ends as
the empty string (assigned, never locked). -/
def specName (chunks : List ExaChunk) : Option String :=
  match (chunks.filterMap goodNameOf).head? with
  | some n => some n
  | none => if chunks.any nameMatches then some "" else none

/-- The claim's literal reading of the name heuristic: the first chunk whose
title matches "text before an opening parenthesis" sets the name to the
matched prefix, trimmed, and later chunks cannot overwrite it. -/
def claimedName (chunks : List ExaChunk) : Option String :=
  (chunks.filterMap fun c =>
    match chunkTitle c with
    | none => none
    | some t => if jsTruthy t then (beforeParen t).map jsTrim else none).head?

/- ===== Per-field characterisation of the chunk fold ===== -/

/-- A qualifying bio line is non-empty (its length exceeds 10), hence truthy. -/
theorem bioLineGood_truthy {l : String} (h : bioLineGood l = true) : jsTruthy l = true := by
  unfold bioLineGood at h
  simp only [Bool.and_eq_true, decide_eq_true_eq] at h
  unfold jsTruthy
  cases hl : l.data with
  | nil => simp [hl] at h
  | cons a as => simp

/-- Tweets accumulate per chunk: the fold appends exactly the qualifying
trimmed texts, in order. -/
theorem foldl_tweets (chunks : List ExaChunk) :
    ∀ acc : ProfileInfo,
      (chunks.foldl processChunk acc).tweets = acc.tweets ++ specTweets chunks := by
  induction chunks with
  | nil => intro acc; simp [specTweets]
  | cons c rest ih =>
    intro acc
    have h := ih (processChunk acc c)
    simp only [List.foldl_cons, h, specTweets, List.filterMap_cons]
    by_cases hc : (jsTruthy c.text && jsTruthy (jsTrim c.text)) = true
    · simp [processChunk, stepTweets, tweetOf, hc, specTweets, List.append_assoc]
    · simp [processChunk, stepTweets, tweetOf, hc, specTweets]

/-- The profile image field after the fold: locked once truthy, otherwise the
first exposed image URL of the remaining chunks (falling back to the
accumulator's value). -/
theorem foldl_image (chunks : List ExaChunk) :
    ∀ acc : ProfileInfo,
      (chunks.foldl processChunk acc).profileImageUrl =
        if optTruthy acc.profileImageUrl then acc.profileImageUrl
        else match specImage chunks with
          | some u => some u
          | none => acc.profileImageUrl := by
  induction chunks with
  | nil =>
    intro acc
    by_cases ha : optTruthy acc.profileImageUrl = true <;> simp [specImage, ha]
  | cons c rest ih =>
    intro acc
    have h := ih (processChunk acc c)
    simp only [List.foldl_cons, h]
    by_cases ha : optTruthy acc.profileImageUrl = true
    · have himg : (processChunk acc c).profileImageUrl = acc.profileImageUrl := by
        simp [processChunk, stepImage, ha]
      rw [himg]
      simp [ha]
    · by_cases hc : optTruthy (chunkImage c) = true
      · cases hci : chunkImage c with
        | none => rw [hci] at hc; simp [optTruthy] at hc
        | some u =>
          have hu : optTruthy (some u) = true := by rw [← hci]; exact hc
          have himg : (processChunk acc c).profileImageUrl = some u := by
            simp [processChunk, stepImage, ha, hci, hu]
          rw [himg]
          have hio : imageOf c = some u := by simp [imageOf, hci, hu]
          have hsp : specImage (c :: rest) = some u := by
            simp [specImage, List.filterMap_cons, hio]
          rw [hsp]
          simp [ha, hu]
      · have himg : (processChunk acc c).profileImageUrl = acc.profileImageUrl := by
          simp [processChunk, stepImage, hc]
        rw [himg]
        have hio : imageOf c = none := by simp [imageOf, hc]
        have hsp : specImage (c :: rest) = specImage rest := by
          simp [specImage, List.filterMap_cons, hio]
        rw [hsp]

/-- The bio field after the fold: locked once truthy, otherwise the first
qualifying line of the remaining non-status chunks (falling back to the
accumulator's value). -/
theorem foldl_bio (chunks : List ExaChunk) :
    ∀ acc : ProfileInfo,
      (chunks.foldl processChunk acc).bio =
        if optTruthy acc.bio then acc.bio
        else match specBio chunks with
          | some b => some b
          | none => acc.bio := by
  induction chunks with
  | nil =>
    intro acc
    by_cases ha : optTruthy acc.bio = true <;> simp [specBio, ha]
  | cons c rest ih =>
    intro acc
    have h := ih (processChunk acc c)
    simp only [List.foldl_cons, h]
    by_cases ha : optTruthy acc.bio = true
    · have hb : (processChunk acc c).bio = acc.bio := by
        simp [processChunk, stepBio, ha]
      rw [hb]
      simp [ha]
    · by_cases hs : jsIncludes c.url "/status/" = true
      · have hb : (processChunk acc c).bio = acc.bio := by
          simp [processChunk, stepBio, hs]
        rw [hb]
        have hsp : specBio (c :: rest) = specBio rest := by
          simp [specBio, hs]
        rw [hsp]
      · cases hl : bioLinesOf c.text with
        | nil =>
          have hb : (processChunk acc c).bio = acc.bio := by
            simp [processChunk, stepBio, ha, hs, hl]
          rw [hb]
          have hsp : specBio (c :: rest) = specBio rest := by
            simp [specBio, hs, hl]
          rw [hsp]
        | cons l ls =>
          have hgood : bioLineGood l = true := by
            have : l ∈ bioLinesOf c.text := by rw [hl]; exact List.mem_cons_self l ls
            exact List.of_mem_filter this
          have hlt : optTruthy (some l) = true := bioLineGood_truthy hgood
          have hb : (processChunk acc c).bio = some l := by
            simp [processChunk, stepBio, ha, hs, hl]
          rw [hb]
          have hsp : specBio (c :: rest) = some l := by
            simp [specBio, hs, hl]
          rw [hsp]
          simp [ha, hlt]

/-- The name field after the fold, tracking the non-locking empty-string
assignment: a truthy accumulator is locked; otherwise the first good (trimmed,
non-empty) title prefix wins; otherwise any regex match leaves the empty
string; otherwise the accumulator survives. -/
theorem foldl_name (chunks : List ExaChunk) :
    ∀ acc : ProfileInfo,
      (chunks.foldl processChunk acc).name =
        if optTruthy acc.name then acc.name
        else match (chunks.filterMap goodNameOf).head? with
          | some n => some n
          | none => if chunks.any nameMatches then some "" else acc.name := by
  induction chunks with
  | nil =>
    intro acc
    by_cases ha : optTruthy acc.name = true <;> simp [ha]
  | cons c rest ih =>
    intro acc
    have h := ih (processChunk acc c)
    simp only [List.foldl_cons, h]
    by_cases ha : optTruthy acc.name = true
    · have hn : (processChunk acc c).name = acc.name := by
        unfold processChunk stepName
        cases chunkTitle c <;> simp [ha]
      rw [hn]
      simp [ha]
    · cases ht : chunkTitle c with
      | none =>
        have hn : (processChunk acc c).name = acc.name := by
          simp [processChunk, stepName, ht]
        rw [hn]
        have hg : goodNameOf c = none := by simp [goodNameOf, ht]
        have hm : nameMatches c = false := by simp [nameMatches, ht]
        simp [ha, List.filterMap_cons, hg, List.any_cons, hm]
      | some t =>
        by_cases htt : jsTruthy t = true
        · cases hp : beforeParen t with
          | none =>
            have hn : (processChunk acc c).name = acc.name := by
              simp [processChunk, stepName, ht, ha, htt, hp]
            rw [hn]
            have hg : goodNameOf c = none := by simp [goodNameOf, ht, htt, hp]
            have hm : nameMatches c = false := by simp [nameMatches, ht, htt, hp]
            simp [ha, List.filterMap_cons, hg, List.any_cons, hm]
          | some p =>
            have hpt : jsTruthy p = true := by
              unfold beforeParen at hp
              by_cases he : (t.data.takeWhile fun c => c ≠ '(').isEmpty = true
              · rw [if_pos he] at hp
                exact Option.noConfusion hp
              · rw [if_neg he] at hp
                have hp2 := Option.some.inj hp
                subst hp2
                unfold jsTruthy
                simpa using he
            have hn : (processChunk acc c).name = some (jsTrim p) := by
              simp [processChunk, stepName, ht, ha, htt, hp, hpt]
            rw [hn]
            have hm : nameMatches c = true := by simp [nameMatches, ht, htt, hp]
            by_cases hgt : jsTruthy (jsTrim p) = true
            · have hg : goodNameOf c = some (jsTrim p) := by
                simp [goodNameOf, ht, htt, hp, hgt]
              have hot : optTruthy (some (jsTrim p)) = true := hgt
              simp [ha, List.filterMap_cons, hg, hot]
            · have hg : goodNameOf c = none := by
                simp [goodNameOf, ht, htt, hp, hgt]
              have hemp : jsTrim p = "" := by
                cases hq : jsTrim p with
                | mk data =>
                  rw [hq] at hgt
                  unfold jsTruthy at hgt
                  simp at hgt
                  simp [hgt]
              have hot : optTruthy (some (jsTrim p)) = false := by
                simp [optTruthy, hgt]
              rw [hemp] at hot ⊢
              simp only [ha, List.filterMap_cons, hg, List.any_cons, hm, hot,
                Bool.false_eq_true, if_false, Bool.true_or, if_true]
              cases hx : (rest.filterMap goodNameOf).head? <;> simp [hx]
        · have hn : (processChunk acc c).name = acc.name := by
            simp [processChunk, stepName, ht, htt]
          rw [hn]
          have hg : goodNameOf c = none := by simp [goodNameOf, ht, htt]
          have hm : nameMatches c = false := by simp [nameMatches, ht, htt]
          simp [ha, List.filterMap_cons, hg, List.any_cons, hm]

/- ===== Claim theorems: extraction heuristic ===== -/

/-- Claim C1: for every search result, the bio is the first qualifying line in
chunk order — lines of non-status chunks, trimmed, longer than 10 characters,
not containing "Followers"/"Following"/"Posts" and not starting with "@" — and
once assigned it is never overwritten (equality with the first-qualifying-line
characterisation `specBio`). -/
theorem extract_bio_first_qualifying_line (searchResult : ExaSearchResult) :
    (extractProfileInfo searchResult).bio = specBio searchResult.chunks := by
  unfold extractProfileInfo
  rw [foldl_bio]
  cases h : specBio searchResult.chunks <;> simp [optTruthy]

/-- Claim C5: for every search result, the extracted profile image URL is the
image URL of the first chunk in processing order exposing one, and later
chunks never overwrite it (equality with the first-exposed-image
characterisation `specImage`). -/
theorem extract_image_first_wins (searchResult : ExaSearchResult) :
    (extractProfileInfo searchResult).profileImageUrl =
      specImage searchResult.chunks := by
  unfold extractProfileInfo
  rw [foldl_image]
  cases h : specImage searchResult.chunks <;> simp [optTruthy]

/-- Claim C9 (amended): the display name is the trimmed before-parenthesis
title prefix of the first chunk whose prefix trims to something non-empty, and
later chunks cannot overwrite such a name; a chunk whose prefix trims to the
empty string assigns the empty string without locking the field, so a later
chunk may overwrite it. -/
theorem extract_name_first_nonblank_title (searchResult : ExaSearchResult) :
    (extractProfileInfo searchResult).name = specName searchResult.chunks := by
  unfold extractProfileInfo specName
  rw [foldl_name]
  cases h : (searchResult.chunks.filterMap goodNameOf).head? <;>
    cases ha : searchResult.chunks.any nameMatches <;> simp [optTruthy, h, ha]

/-- A chunk whose title's before-parenthesis prefix is all whitespace. -/
def blankTitleChunk : ExaChunk :=
  { text := ""
    url := "https://x.com/jdoe/status/1"
    extra_info := some
      { title := some " (x)", author := none, publish_date := none, image_url := none } }

/-- A later chunk with an ordinary "Name (...)" title. -/
def namedTitleChunk : ExaChunk :=
  { text := ""
    url := "https://x.com/jdoe/status/2"
    extra_info := some
      { title := some "Bob (y)", author := none, publish_date := none, image_url := none } }

/-- The search result refuting claim C9 as stated. -/
def nameCounterResult : ExaSearchResult :=
  { chunks := [blankTitleChunk, namedTitleChunk], total_chunk_count := 2 }

/-- Claim C9 counterexample: the first chunk's title " (x)" matches the
pattern "text before an opening parenthesis" (matched prefix " ", trimmed to
""), so under the claim the name would be "" and locked; the code instead
lets the later chunk overwrite it with "Bob". -/
theorem extract_name_claim_counterexample :
    claimedName nameCounterResult.chunks = some "" ∧
    (extractProfileInfo nameCounterResult).name = some "Bob" ∧
    claimedName nameCounterResult.chunks ≠ (extractProfileInfo nameCounterResult).name := by
  refine ⟨by decide, by decide, by decide⟩

/-- Sanity example from the spec: a "Followers: 200" chunk followed by a
"Loves hiking and open source." chunk yields the latter as bio. -/
example :
    (extractProfileInfo
      { chunks :=
          [ { text := "Followers: 200", url := "https://x.com/jdoe", extra_info := none },
            { text := "Loves hiking and open source.", url := "https://x.com/jdoe",
              extra_info := none } ],
        total_chunk_count := 2 }).bio = some "Loves hiking and open source." := by
  decide

/-- Sanity example: a chunk whose URL contains "/status/" contributes a tweet
but not a bio, and the first exposed image wins over a later one. -/
example :
    extractProfileInfo
      { chunks :=
          [ { text := "A very interesting tweet", url := "https://x.com/jdoe/status/7",
              extra_info := some
                { title := some "Jane Doe (@jdoe) / X", author := none,
                  publish_date := none, image_url := some "https://img/one.png" } },
            { text := "Writes about compilers and coffee", url := "https://x.com/jdoe",
              extra_info := some
                { title := some "Other (t)", author := none,
                  publish_date := none, image_url := some "https://img/two.png" } } ],
        total_chunk_count := 2 } =
      { tweets := ["A very interesting tweet", "Writes about compilers and coffee"],
        bio := some "Writes about compilers and coffee",
        profileImageUrl := some "https://img/one.png",
        name := some "Jane Doe" } := by
  decide

/- ===== OpenAIClient.generatePersona (src/app/lib/openai.ts) ===== -/

/-- The JSON object shape parsed from the chat-completion reply; every field
may be absent. -/
structure PersonaJson where
  name : Option String
  handle : Option String
  bio : Option String
  traits : Option (List String)
  interests : Option (List String)
deriving DecidableEq

/-- The presence validation `if (!personaData.name || !personaData.traits ||
!personaData.interests) throw`: name must be a present non-empty string,
traits and interests present arrays (JS truthiness). -/
def personaValid (personaData : PersonaJson) : Bool :=
  optTruthy personaData.name && arrTruthy personaData.traits && arrTruthy personaData.interests

/-- The generic error every failure is rewrapped into by the catch block. -/
def genFailureMsg : String := "Failed to generate persona"

/-- The response-processing stage of `generatePersona`, from the chat
completion content onwards: empty content throws, `JSON.parse` failure
throws, and a parsed object missing name/traits/interests throws; every
throw is caught and rewrapped into the generic failure.  `parseJson` stands
for `JSON.parse` restricted to the expected shape. -/
def generatePersonaResult (parseJson : String → Option PersonaJson)
    (content : Option String) : Except String PersonaJson :=
  match content with
  | none => .error genFailureMsg
  | some c =>
    if c.data.isEmpty then .error genFailureMsg
    else
      match parseJson c with
      | none => .error genFailureMsg
      | some personaData =>
        if personaValid personaData then .ok personaData
        else .error genFailureMsg

/-- Claim C3: whenever the parsed JSON object is missing any of name, traits
or interests, `generatePersona` fails with the generation failure and never
returns a partial persona. -/
theorem generatePersona_missing_field (parseJson : String → Option PersonaJson)
    (c : String) (personaData : PersonaJson)
    (hp : parseJson c = some personaData)
    (hmiss : personaData.name = none ∨ personaData.traits = none ∨
      personaData.interests = none) :
    generatePersonaResult parseJson (some c) = .error genFailureMsg := by
  unfold generatePersonaResult
  by_cases he : c.data.isEmpty = true
  · simp [he]
  · have hv : personaValid personaData = false := by
      unfold personaValid
      rcases hmiss with h | h | h <;> simp [h, optTruthy, arrTruthy]
    simp [he, hp, hv]

/-- A parse function returning an object with no traits and no interests. -/
def parseMissingTraits : String → Option PersonaJson :=
  fun _ => some
    { name := some "Ann", handle := some "ann", bio := some "writes code",
      traits := none, interests := none }

/-- Witness for claim C3 at a concrete parse function and content. -/
theorem generatePersona_missing_field_witness :
    generatePersonaResult parseMissingTraits (some "x") = .error genFailureMsg :=
  generatePersona_missing_field parseMissingTraits "x"
    { name := some "Ann", handle := some "ann", bio := some "writes code",
      traits := none, interests := none }
    rfl (Or.inr (Or.inl rfl))

/- ===== Prompt construction (src/app/lib/openai.ts lines 65-81 and
PromptEngineer.createPersonaUserPrompt) ===== -/

/-- One bullet line of the tweet list. -/
def bulletTweet (tweet : String) : String := "• " ++ tweet

/-- The tweet list: take the first 10 tweets, bullet each, join with newlines. -/
def tweetList (recentTweets : List String) : String :=
  String.intercalate "\n" ((recentTweets.take 10).map bulletTweet)

/-- The user message template of `OpenAIClient.generatePersona`. -/
def userMessage (recentTweets : List String) (bio : String) : String :=
  "\n        Here\x27s information from an X (Twitter) user\x27s profile:\n        \n        " ++
  (if jsTruthy bio then "Bio: " ++ bio ++ "\n\n" else "") ++
  "\n        \n        Recent posts:\n        " ++
  tweetList recentTweets ++
  "\n        \n        Based on this information, create a persona for this user.\n      "

/-- The user prompt template of `PromptEngineer.createPersonaUserPrompt`
(same slice of at most 10 tweets, plus optional bio and profile description). -/
def createPersonaUserPrompt (recentTweets : List String) (bio profileDescription : String) :
    String :=
  "\n      Here\x27s information from an X (Twitter) user\x27s profile:\n      \n      " ++
  (if jsTruthy bio then "Bio: " ++ bio ++ "\n\n" else "") ++
  "\n      " ++
  (if jsTruthy profileDescription then
    "Profile description: " ++ profileDescription ++ "\n\n" else "") ++
  "\n      \n      Recent posts:\n      " ++
  tweetList recentTweets ++
  "\n      \n      Based on this information, create a persona for this user following the format in your instructions.\n      Focus especially on traits and interests that might influence what locations they would enjoy visiting.\n    "

/-- Claim C8: both persona user prompts depend only on the first 10 tweet
snippets (so tweets beyond the tenth never appear), and when a bio is present
the prompt embeds it as a "Bio: " section. -/
theorem userPrompt_first_ten_tweets (recentTweets : List String)
    (bio profileDescription : String) :
    userMessage recentTweets bio = userMessage (recentTweets.take 10) bio ∧
    createPersonaUserPrompt recentTweets bio profileDescription =
      createPersonaUserPrompt (recentTweets.take 10) bio profileDescription ∧
    (jsTruthy bio = true →
      ∃ a b, userMessage recentTweets bio = a ++ ("Bio: " ++ bio ++ "\n\n") ++ b) := by
  refine ⟨?_, ?_, ?_⟩
  · simp [userMessage, tweetList, List.take_take]
  · simp [createPersonaUserPrompt, tweetList, List.take_take]
  · intro hb
    refine ⟨"\n        Here\x27s information from an X (Twitter) user\x27s profile:\n        \n        ",
      "\n        \n        Recent posts:\n        " ++ tweetList recentTweets ++
      "\n        \n        Based on this information, create a persona for this user.\n      ", ?_⟩
    unfold userMessage
    rw [if_pos hb]
    simp only [String.append_assoc]

/-- Witness for claim C8 at a concrete tweet list and a present bio. -/
theorem userPrompt_first_ten_tweets_witness :
    userMessage ["hello world"] "cool bio" =
      userMessage (List.take 10 ["hello world"]) "cool bio" ∧
    (∃ a b, userMessage ["hello world"] "cool bio" =
      a ++ ("Bio: " ++ "cool bio" ++ "\n\n") ++ b) :=
  ⟨(userPrompt_first_ten_tweets ["hello world"] "cool bio" "").1,
   (userPrompt_first_ten_tweets ["hello world"] "cool bio" "").2.2 (by decide)⟩

/- ===== ExaClient.searchXProfile query construction (src/app/lib/exa.ts 35-39) ===== -/

/-- The handle cleaning step: strip one leading "@" when present (the regex replace of a leading at-sign with the empty string). -/
def cleanHandle (xHandle : String) : String :=
  match xHandle.data with
  | '@' :: rest => String.mk rest
  | _ => xHandle

/-- The outbound search query
`` `site:twitter.com @${cleanHandle} OR from:${cleanHandle}` ``. -/
def searchQuery (xHandle : String) : String :=
  "site:twitter.com @" ++ cleanHandle xHandle ++ " OR from:" ++ cleanHandle xHandle

/-- Claim C6: a leading "@" is stripped from the handle wherever it is used;
in particular "@jdoe" cleans to "jdoe" and the constructed query embeds
"from:jdoe". -/
theorem cleanHandle_strips_at (s : String) :
    cleanHandle ("@" ++ s) = s ∧
    cleanHandle "@jdoe" = "jdoe" ∧
    searchQuery "@jdoe" = "site:twitter.com @jdoe OR from:jdoe" ∧
    ∃ a b, searchQuery "@jdoe" = a ++ "from:jdoe" ++ b := by
  refine ⟨?_, by decide, by decide, "site:twitter.com @jdoe OR ", "", by decide⟩
  cases s with
  | mk data => rfl

/- ===== Route handlers (src/app/api/.../route.ts) ===== -/

/-- The observable part of a route handler response: HTTP status and the
`success` flag of the JSON body. -/
structure RouteResponse where
  status : Nat
  success : Bool
deriving DecidableEq

/-- The persona `POST` handler as a function of the request's `xHandle` and
the outcomes of the two awaited external calls (`Except.error` stands for a
thrown/rejected call, caught by the handler's catch block and turned into a
500).  Missing or empty handle gives 400; an extraction with zero tweets gives
404 before the generation call; otherwise the generation outcome decides
between 500 and 200. -/
def personaRoutePOST (xHandle : Option String)
    (searchOutcome : Except Unit ExaSearchResult)
    (genOutcome : Except Unit PersonaJson) : RouteResponse :=
  if !(optTruthy xHandle) then { status := 400, success := false }
  else
    match searchOutcome with
    | .error _ => { status := 500, success := false }
    | .ok searchResult =>
      if (extractProfileInfo searchResult).tweets.length = 0 then
        { status := 404, success := false }
      else
        match genOutcome with
        | .error _ => { status := 500, success := false }
        | .ok _ => { status := 200, success := true }

/-- Claim C4: when every chunk of the search result has empty trimmed text,
the persona endpoint answers 404 with `success := false`, uniformly in the
generation outcome — so persona generation is never invoked. -/
theorem personaRoute_404_on_no_tweets (xHandle : String)
    (searchResult : ExaSearchResult) (genOutcome : Except Unit PersonaJson)
    (hx : jsTruthy xHandle = true)
    (hempty : ∀ c ∈ searchResult.chunks, jsTrim c.text = "") :
    personaRoutePOST (some xHandle) (.ok searchResult) genOutcome =
      { status := 404, success := false } := by
  have htw : (extractProfileInfo searchResult).tweets = [] := by
    unfold extractProfileInfo
    rw [foldl_tweets]
    have : specTweets searchResult.chunks = [] := by
      unfold specTweets
      rw [List.filterMap_eq_nil_iff]
      intro c hc
      have h0 := hempty c hc
      unfold tweetOf
      simp [h0, jsTruthy]
    simp [this]
  unfold personaRoutePOST
  simp [optTruthy, hx, htw]

/-- Witness for claim C4: a single whitespace-only chunk, with a generation
outcome that would succeed if it were ever consulted. -/
theorem personaRoute_404_on_no_tweets_witness :
    personaRoutePOST (some "jdoe")
      (.ok { chunks := [{ text := "   ", url := "https://x.com/jdoe", extra_info := none }],
             total_chunk_count := 1 })
      (.ok { name := some "Ann", handle := some "ann", bio := some "b",
             traits := some ["t"], interests := some ["i"] }) =
      { status := 404, success := false } :=
  personaRoute_404_on_no_tweets "jdoe" _ _ (by decide) (by decide)

/-- A recommended location (src/components/LocationList.tsx `Location`);
coordinates are exact rationals standing for the JS numbers. -/
structure Location where
  id : String
  name : String
  address : String
  description : String
  category : String
  lat : ℚ
  lng : ℚ
  rating : Option ℚ
deriving DecidableEq

/-- The persona carried by a locations request (src/app/types/api.ts). -/
structure Persona where
  name : String
  handle : String
  bio : String
  traits : List String
  interests : List String
deriving DecidableEq

/-- The locations `POST` handler as a function of the request fields and the
outcome of the awaited recommender call: missing persona or missing/empty
location gives 400; a thrown recommender call gives 500; an empty
recommendation list gives 404; otherwise 200. -/
def locationsRoutePOST (persona : Option Persona) (location : Option String)
    (recOutcome : Except Unit (List Location)) : RouteResponse :=
  if !persona.isSome || !(optTruthy location) then { status := 400, success := false }
  else
    match recOutcome with
    | .error _ => { status := 500, success := false }
    | .ok recommendedLocations =>
      if recommendedLocations.length = 0 then { status := 404, success := false }
      else { status := 200, success := true }

/-- Claim C7: with persona and a non-empty city present, an empty recommender
result yields 404 with `success := false`; a missing persona or missing
location yields 400. -/
theorem locationsRoute_404_and_400 (persona : Persona) (location : String)
    (q : Option Persona) (r : Option String)
    (recOutcome : Except Unit (List Location))
    (hloc : jsTruthy location = true) :
    locationsRoutePOST (some persona) (some location) (.ok []) =
      { status := 404, success := false } ∧
    locationsRoutePOST none r recOutcome = { status := 400, success := false } ∧
    locationsRoutePOST q none recOutcome = { status := 400, success := false } := by
  refine ⟨?_, ?_, ?_⟩
  · simp [locationsRoutePOST, optTruthy, hloc]
  · simp [locationsRoutePOST]
  · simp [locationsRoutePOST, optTruthy]

/-- Witness for claim C7 at a concrete persona and city. -/
theorem locationsRoute_404_and_400_witness :
    locationsRoutePOST
      (some { name := "Ann", handle := "ann", bio := "b",
              traits := ["t"], interests := ["i"] })
      (some "Toronto") (.ok []) = { status := 404, success := false } ∧
    locationsRoutePOST none none (.ok []) = { status := 400, success := false } ∧
    locationsRoutePOST none none (.ok []) = { status := 400, success := false } :=
  locationsRoute_404_and_400
    { name := "Ann", handle := "ann", bio := "b", traits := ["t"], interests := ["i"] }
    "Toronto" none none (.ok []) (by decide)

/- ===== Category lookup tables (LocationList.getCategoryEmoji,
LocationMap.getCategoryIcon) ===== -/

/-- A value read by bracket-indexing a plain object literal: an own
string-valued entry, a truthy non-string property inherited from the
`Object.prototype` chain (tagged by its key: e.g. the `constructor` function
or the `__proto__` object), or `undefined`. -/
inductive JsValue where
  | str : String → JsValue
  | inherited : String → JsValue
  | undefinedVal : JsValue
deriving DecidableEq

/-- JS truthiness of such a value: inherited functions and objects are always
truthy, `undefined` is falsy, and a string is truthy when non-empty. -/
def jsValTruthy : JsValue → Bool
  | .str s => jsTruthy s
  | .inherited _ => true
  | .undefinedVal => false

/-- Property names every plain object literal inherits from
`Object.prototype`; each resolves to a truthy function or object. -/
def objectProtoKeys : List String :=
  ["constructor", "hasOwnProperty", "isPrototypeOf", "propertyIsEnumerable",
   "toLocaleString", "toString", "valueOf", "__proto__",
   "__defineGetter__", "__defineSetter__", "__lookupGetter__", "__lookupSetter__"]

/-- Bracket indexing `obj[key]` on a string-valued object literal: an own key
wins; otherwise the prototype chain answers for the `Object.prototype`
property names; otherwise the access is `undefined`. -/
def jsIndex (own : List (String × String)) (key : String) : JsValue :=
  match own.lookup key with
  | some v => .str v
  | none => if key ∈ objectProtoKeys then .inherited key else .undefinedVal

/-- The category-to-emoji object literal of `getCategoryEmoji`, own `default`
entry included. -/
def categoryEmojiTable : List (String × String) :=
  [("restaurant", "🍽️"), ("cafe", "☕"), ("bar", "🍸"), ("park", "🌳"),
   ("museum", "🏛️"), ("shopping", "🛍️"), ("entertainment", "🎭"),
   ("sports", "🏃"), ("fitness", "💪"), ("education", "📚"), ("work", "💼"),
   ("tech", "💻"), ("art", "🎨"), ("music", "🎵"), ("outdoor", "🏞️"),
   ("default", "📍")]

/-- Embeds `getCategoryEmoji`:
`categories[category.toLowerCase()] || categories.default` — the lowercased
category is bracket-indexed, any truthy result (own entry or inherited
prototype property) is returned as-is, and only a falsy access falls back to
the default pin glyph. -/
def getCategoryEmoji (category : String) : JsValue :=
  if jsValTruthy (jsIndex categoryEmojiTable (lowerStr category)) then
    jsIndex categoryEmojiTable (lowerStr category)
  else .str "📍"

/-- The category-to-colour object literal of `getCategoryIcon`, own `default`
entry included. -/
def markerColorTable : List (String × String) :=
  [("restaurant", "FF5252"), ("cafe", "FFAB40"), ("bar", "7C4DFF"),
   ("park", "66BB6A"), ("museum", "FFC107"), ("shopping", "EC407A"),
   ("entertainment", "448AFF"), ("sports", "26A69A"), ("fitness", "EF5350"),
   ("education", "5C6BC0"), ("work", "78909C"), ("tech", "42A5F5"),
   ("art", "AB47BC"), ("music", "26C6DA"), ("outdoor", "9CCC65"),
   ("default", "757575")]

/-- The marker colour choice of `getCategoryIcon`:
`colors[category.toLowerCase()] || colors.default`, with the same prototype
chain behind the bracket index. -/
def getMarkerColor (category : String) : JsValue :=
  if jsValTruthy (jsIndex markerColorTable (lowerStr category)) then
    jsIndex markerColorTable (lowerStr category)
  else .str "757575"

/-- Claim C10 counterexample: the category "constructor" is in neither static
table, yet both lookups return the truthy `constructor` function inherited
from `Object.prototype` instead of the default glyph or colour — the `||`
fallback never fires — so the lookups are not total onto the tables plus
defaults over every category string. -/
theorem category_lookup_proto_counterexample :
    getCategoryEmoji "constructor" = .inherited "constructor" ∧
    getMarkerColor "constructor" = .inherited "constructor" ∧
    getCategoryEmoji "constructor" ≠ .str "📍" ∧
    getMarkerColor "constructor" ≠ .str "757575" := by
  refine ⟨by decide, by decide, by decide, by decide⟩

/-- Claim C10 (amended): for every category string whose lowercased form is
not an `Object.prototype` property name, the lookups are total via the static
tables and defaults — a category absent from the tables yields the default
glyph and default colour rather than failing, and known categories resolve
case-insensitively; categories naming an inherited prototype property instead
surface the inherited truthy non-string value. -/
theorem category_lookup_total (category : String)
    (he : categoryEmojiTable.lookup (lowerStr category) = none)
    (hc : markerColorTable.lookup (lowerStr category) = none)
    (hp : lowerStr category ∉ objectProtoKeys) :
    getCategoryEmoji category = .str "📍" ∧
    getMarkerColor category = .str "757575" ∧
    getCategoryEmoji "PARK" = .str "🌳" ∧
    getMarkerColor "Cafe" = .str "FFAB40" := by
  refine ⟨?_, ?_, by decide, by decide⟩
  · simp [getCategoryEmoji, jsIndex, he, hp, jsValTruthy]
  · simp [getMarkerColor, jsIndex, hc, hp, jsValTruthy]

/-- Witness for claim C10 at a category found in neither table nor on the
prototype chain. -/
theorem category_lookup_total_witness :
    getCategoryEmoji "spaceport" = .str "📍" ∧
    getMarkerColor "spaceport" = .str "757575" ∧
    getCategoryEmoji "PARK" = .str "🌳" ∧
    getMarkerColor "Cafe" = .str "FFAB40" :=
  category_lookup_total "spaceport" (by decide) (by decide) (by decide)

/- ===== LocationMap map-centering effect (src/components/LocationMap.tsx 28-50) ===== -/

/-- A latitude/longitude pair; exact rationals stand for the JS numbers. -/
structure LatLng where
  lat : ℚ
  lng : ℚ
deriving DecidableEq

/-- The fixed fallback city coordinate (Toronto). -/
def torontoCoords : LatLng := { lat := 43.6532, lng := -79.3832 }

/-- The initial `mapCenter` React state: `useState(... Toronto ...)` — note it
is initialised to Toronto, not to `null`. -/
def initialMapCenter : Option LatLng := some torontoCoords

/-- The centre of the `LatLngBounds` spanned by a non-empty list of
coordinates: the midpoint of the north-east and south-west corners. -/
def boundsCenter : List LatLng → Option LatLng
  | [] => none
  | l :: ls =>
    some
      { lat := (ls.foldl (fun m p => max m p.lat) l.lat +
                ls.foldl (fun m p => min m p.lat) l.lat) / 2
        lng := (ls.foldl (fun m p => max m p.lng) l.lng +
                ls.foldl (fun m p => min m p.lng) l.lng) / 2 }

/-- The body of the `useEffect` computing the map centre: it recomputes the
bounds centre only when locations exist, no explicit centre prop is given and
the current `mapCenter` state is `null`; otherwise an explicit centre prop is
copied, and otherwise the state is left unchanged. -/
def mapCenterEffect (locations : List LatLng) (centerCoordinates : Option LatLng)
    (mapCenter : Option LatLng) : Option LatLng :=
  if 0 < locations.length && centerCoordinates.isNone && mapCenter.isNone then
    boundsCenter locations
  else if centerCoordinates.isSome then centerCoordinates
  else mapCenter

/-- Claim C2 (code bug): starting from the initial state — which is Toronto,
not `null` — the effect never takes the bounds branch when no explicit centre
is supplied, so for every location list the centre remains the Toronto
fallback; in particular for the one-location list [(10, 20)] the bounds
centre (10, 20) is available yet unused. -/
theorem mapCenter_stays_toronto (locations : List LatLng) :
    mapCenterEffect locations none initialMapCenter = some torontoCoords ∧
    boundsCenter [{ lat := 10, lng := 20 }] = some { lat := 10, lng := 20 } ∧
    mapCenterEffect [{ lat := 10, lng := 20 }] none initialMapCenter ≠
      boundsCenter [{ lat := 10, lng := 20 }] := by
  refine ⟨?_, ?_, ?_⟩
  · simp [mapCenterEffect, initialMapCenter]
  · norm_num [boundsCenter]
  · simp [mapCenterEffect, initialMapCenter, boundsCenter, torontoCoords]
    intro h
    norm_num at h
